import Mathlib

/-!
Shallow embedding of the MQTT subscribe module
(`src/src/lib_mqtt/src/mqtt_client_subscribe.c`) of mico-mqtt-aliyun-iot.

Bytes are modelled as `Nat` values reduced mod 256 at every read and write,
buffers as `List Nat`, and C out-parameters as explicit inputs/outputs: a
function receives the caller's initial out-parameter values and returns their
final values, so an early `return` leaves them at their initial values exactly
as the C code does.  Helper routines that live in
`mqtt_client_common_internal.h` / the common source file (not part of this
repository snapshot) are modelled from the specification and marked as such in
their doc comments.
-/

set_option autoImplicit false

namespace MqttSubscribe

/-- Return codes of the module, named after the `IoT_Error_t` enumerators the
source file uses.  The specification's taxonomy maps `MQTT_FAILURE` at the
decode sites to "ProtocolMismatch". -/
inductive IoT_Error where
  | MQTT_SUCCESS
  | MQTT_FAILURE
  | NULL_VALUE_ERROR
  | MQTT_TX_BUFFER_TOO_SHORT_ERROR
  | MQTT_RX_BUFFER_TOO_SHORT_ERROR
  | MQTT_MAX_SUBSCRIPTIONS_REACHED_ERROR
  | NETWORK_DISCONNECTED_ERROR
  | MQTT_CLIENT_NOT_IDLE_ERROR
  | MQTT_DECODE_REMAINING_LENGTH_ERROR
  | MQTT_UNEXPECTED_CLIENT_STATE_ERROR
  | MQTT_REQUEST_TIMEOUT_ERROR
  | NETWORK_SSL_WRITE_ERROR
  deriving DecidableEq, Repr

open IoT_Error

/-- Requested and granted quality of service values travel as single bytes;
the C enum `QoS` has underlying integer values, and `_mqtt_deserialize_suback`
casts an arbitrary received byte to it, so the model uses `Nat`. -/
abbrev QoS := Nat

def QOS0 : QoS := 0

def QOS1 : QoS := 1

def QOS2 : QoS := 2

/-- MQTT control packet type SUBSCRIBE (fixed-header high nibble 8). -/
def SUBSCRIBE : Nat := 8

/-- MQTT control packet type SUBACK (fixed-header high nibble 9). -/
def SUBACK : Nat := 9

/-- Capacity of the message-handler table.  Modelled from the spec: "Table
capacity is fixed (N slots)"; the configuration constant itself is outside
this repository snapshot. -/
def MQTT_NUM_SUBSCRIBE_HANDLERS : Nat := 5

/-- Modelled from the spec: `mqtt_internal_read_char` (byte read through an
advancing pointer); reading position `i` of the buffer, reduced to an
unsigned-char value. -/
def mqtt_internal_read_char (buf : List Nat) (i : Nat) : Nat :=
  buf.getD i 0 % 256

/-- A write cursor over a destination buffer: current contents and position. -/
abbrev WriteState := List Nat × Nat

/-- Modelled from the spec: `mqtt_internal_write_char` stores one byte at the
cursor and advances it. -/
def mqtt_internal_write_char (st : WriteState) (c : Nat) : WriteState :=
  (st.1.set st.2 (c % 256), st.2 + 1)

/-- Writes a list of bytes in order through the cursor. -/
def writeByteList (st : WriteState) (bs : List Nat) : WriteState :=
  bs.foldl mqtt_internal_write_char st

/-- Modelled from the spec: `mqtt_internal_write_uint_16`, big-endian. -/
def mqtt_internal_write_uint_16 (st : WriteState) (v : Nat) : WriteState :=
  writeByteList st [v / 256 % 256, v % 256]

/-- Modelled from the spec: `mqtt_internal_write_utf8_string`: a 2-byte
big-endian length prefix followed by exactly `len` bytes taken from the topic
pointer. -/
def mqtt_internal_write_utf8_string (st : WriteState) (s : List Nat) (len : Nat) : WriteState :=
  writeByteList (mqtt_internal_write_uint_16 st len)
    ((List.range len).map (fun i => s.getD i 0))

/-- Modelled from the spec: the standard MQTT 1-4 byte variable-length
encoding of a remaining length (7 data bits plus a continuation bit per
byte); stands for `mqtt_internal_write_len_to_buffer`. -/
def encodeRemainingLength (n : Nat) : List Nat :=
  if n < 128 then [n]
  else if n < 16384 then [n % 128 + 128, n / 128]
  else if n < 2097152 then [n % 128 + 128, n / 128 % 128 + 128, n / 16384]
  else [n % 128 + 128, n / 128 % 128 + 128, n / 16384 % 128 + 128, n / 2097152]

/-- Modelled from the spec (§4.1 step 2): total packet size = 1 fixed-header
byte + size of the variable-length encoding of the remaining length + the
remaining length itself. -/
def mqtt_internal_get_final_packet_length_from_remaining_length (rem_len : Nat) : Nat :=
  1 + (encodeRemainingLength rem_len).length + rem_len

/-- Modelled from the spec: `mqtt_internal_init_header` builds the fixed
header byte: high nibble = type, then dup bit, 2 QoS bits, retain bit. -/
def mqtt_internal_init_header (msgType qos dup retained : Nat) : IoT_Error × Nat :=
  (MQTT_SUCCESS, msgType % 16 * 16 + dup % 2 * 8 + qos % 4 * 2 + retained % 2)

/-- Modelled from the spec: decoding of the 1-4 byte variable-length
remaining-length field, returning (rc, decoded value, bytes consumed);
stands for `mqtt_internal_decode_remaining_length_from_buffer`. -/
def mqtt_internal_decode_remaining_length_from_buffer (buf : List Nat) :
    IoT_Error × Nat × Nat :=
  let b0 := mqtt_internal_read_char buf 0
  if b0 < 128 then (MQTT_SUCCESS, b0, 1)
  else
    let b1 := mqtt_internal_read_char buf 1
    if b1 < 128 then (MQTT_SUCCESS, b0 % 128 + b1 * 128, 2)
    else
      let b2 := mqtt_internal_read_char buf 2
      if b2 < 128 then (MQTT_SUCCESS, b0 % 128 + b1 % 128 * 128 + b2 * 16384, 3)
      else
        let b3 := mqtt_internal_read_char buf 3
        if b3 < 128 then
          (MQTT_SUCCESS, b0 % 128 + b1 % 128 * 128 + b2 % 128 * 16384 + b3 * 2097152, 4)
        else (MQTT_DECODE_REMAINING_LENGTH_ERROR, 0, 4)

/-- A topic tuple as passed to the serializer: (topic bytes, declared topic
length, requested QoS).  The C function receives these as three parallel
arrays plus a count. -/
abbrev TopicSpec := List Nat × Nat × Nat

/-- Embedding of `_mqtt_serialize_subscribe` (source lines 42-87).  Returns
(rc, final destination-buffer contents, serialized length).  On the
buffer-too-short path the function returns before any write, so the
destination contents are the caller's unchanged and the length output keeps
its initial value, modelled here as the 0 the callers pass in. -/
def _mqtt_serialize_subscribe (pTxBuf : List Nat) (txBufLen : Nat) (dup : Nat)
    (packetId : Nat) (topics : List TopicSpec) : IoT_Error × List Nat × Nat :=
  let rem_len := 2 + topics.foldl (fun acc t => acc + (t.2.1 + 2 + 1)) 0
  if mqtt_internal_get_final_packet_length_from_remaining_length rem_len > txBufLen then
    (MQTT_TX_BUFFER_TOO_SHORT_ERROR, pTxBuf, 0)
  else
    let hd := mqtt_internal_init_header SUBSCRIBE QOS1 dup 0
    if hd.1 ≠ MQTT_SUCCESS then (hd.1, pTxBuf, 0)
    else
      let st0 := mqtt_internal_write_char (pTxBuf, 0) hd.2
      let st1 := writeByteList st0 (encodeRemainingLength rem_len)
      let st2 := mqtt_internal_write_uint_16 st1 packetId
      let st3 := topics.foldl
        (fun st t => mqtt_internal_write_char (mqtt_internal_write_utf8_string st t.1 t.2.1) t.2.2)
        st2
      (MQTT_SUCCESS, st3.1, st3.2)

/-- The payload loop of `_mqtt_deserialize_suback` (source lines 145-151):
one return-code byte at a time, first testing `count > max`, then storing at
index `count` and incrementing. -/
def subackPayloadLoop (maxExpectedQoSCount : Nat) (granted : List Nat) (count : Nat) :
    List Nat → IoT_Error × Nat × List Nat
  | [] => (MQTT_SUCCESS, count, granted)
  | b :: rest =>
    if count > maxExpectedQoSCount then (MQTT_FAILURE, count, granted)
    else subackPayloadLoop maxExpectedQoSCount (granted.set count b) (count + 1) rest

/-- Embedding of `_mqtt_deserialize_suback` (source lines 100-154).  The C
out-parameters `*pPacketId`, `*pGrantedQoSCount`, `*pGrantedQoSs` enter as
their initial values `packetId0`, `grantedCount0`, `granted0`; the result is
(rc, final packet id, final granted count, final granted array). -/
def _mqtt_deserialize_suback (packetId0 : Nat) (maxExpectedQoSCount : Nat)
    (grantedCount0 : Nat) (granted0 : List Nat) (pRxBuf : List Nat) (rxBufLen : Nat) :
    IoT_Error × Nat × Nat × List Nat :=
  if rxBufLen < 5 then
    (MQTT_RX_BUFFER_TOO_SHORT_ERROR, packetId0, grantedCount0, granted0)
  else
    let headerByte := mqtt_internal_read_char pRxBuf 0
    if headerByte / 16 ≠ SUBACK then (MQTT_FAILURE, packetId0, grantedCount0, granted0)
    else
      let afterHeader := pRxBuf.drop 1
      let dec := mqtt_internal_decode_remaining_length_from_buffer afterHeader
      if dec.1 ≠ MQTT_SUCCESS then (dec.1, packetId0, grantedCount0, granted0)
      else
        let decodedLen := dec.2.1
        let afterLen := afterHeader.drop dec.2.2
        if decodedLen < 2 then (MQTT_FAILURE, packetId0, grantedCount0, granted0)
        else
          let packetId :=
            mqtt_internal_read_char afterLen 0 * 256 + mqtt_internal_read_char afterLen 1
          let payload :=
            (List.range (decodedLen - 2)).map (fun i => mqtt_internal_read_char afterLen (2 + i))
          let r := subackPayloadLoop maxExpectedQoSCount granted0 0 payload
          (r.1, packetId, r.2.1, r.2.2)

/-- One slot of the subscription table (`MessageHandlers` in the client
struct): a slot is free iff its `topicName` pointer is NULL, modelled as
`none`.  Handler function pointer and user context are opaque. -/
structure MessageHandler where
  topicName : Option (List Nat)
  topicNameLen : Nat
  pApplicationHandler : Nat
  pApplicationHandlerData : Nat
  qos : QoS
  deriving DecidableEq, Repr

instance : Inhabited MessageHandler := ⟨⟨none, 0, 0, 0, 0⟩⟩

/-- Client connection states used by this module; other states of the full
client are out of scope for its control flow (spec §3). -/
inductive ClientState where
  | CLIENT_STATE_INVALID
  | CLIENT_STATE_DISCONNECTED_IDLE
  | CLIENT_STATE_CONNECTED_IDLE
  | CLIENT_STATE_CONNECTED_SUBSCRIBE_IN_PROGRESS
  | CLIENT_STATE_CONNECTED_RESUBSCRIBE_IN_PROGRESS
  | CLIENT_STATE_CONNECTED_WAIT_FOR_CB_RETURN
  deriving DecidableEq, Repr

open ClientState

/-- The fields of `ClientData` that this module touches. -/
structure ClientData where
  messageHandlers : List MessageHandler
  writeBuf : List Nat
  writeBufSize : Nat
  readBuf : List Nat
  readBufSize : Nat
  commandTimeoutMs : Nat
  deriving DecidableEq, Repr

/-- The MQTT client record: its data, its guarded connection state, its
connectivity flag, and the externally owned next packet identifier. -/
structure MQTT_Client where
  clientData : ClientData
  clientState : ClientState
  isConnected : Bool
  nextPacketId : Nat
  deriving DecidableEq, Repr

/-- Outcome of one network round trip, supplied by the environment: the
result of the transport send, the result of waiting for a SUBACK, and the
read-buffer contents delivered by a successful wait. -/
structure ExchangeEnv where
  sendResult : IoT_Error
  waitResult : IoT_Error
  readBuf : List Nat
  deriving DecidableEq, Repr

/-- Modelled from the spec: `is_connected(client) -> bool` collaborator. -/
def mqtt_is_client_connected (pClient : MQTT_Client) : Bool :=
  pClient.isConnected

/-- Modelled from the spec: `get_state(client) -> State` collaborator. -/
def mqtt_get_client_state (pClient : MQTT_Client) : ClientState :=
  pClient.clientState

/-- Modelled from the spec (§4.5): guarded compare-and-transition — if the
current state equals `expected` set it to `next`, else fail with a
state-mismatch error and leave the client untouched. -/
def mqtt_set_client_state (pClient : MQTT_Client) (expected next : ClientState) :
    IoT_Error × MQTT_Client :=
  if pClient.clientState = expected then
    (MQTT_SUCCESS, { pClient with clientState := next })
  else (MQTT_UNEXPECTED_CLIENT_STATE_ERROR, pClient)

/-- Modelled from the spec: `next_packet_identifier(client) -> u16`,
monotonic and externally owned; returns the fresh id and the client with the
counter advanced. -/
def mqtt_get_next_packet_id (pClient : MQTT_Client) : Nat × MQTT_Client :=
  (pClient.nextPacketId % 65536,
    { pClient with nextPacketId := pClient.nextPacketId % 65536 + 1 })

/-- Modelled from the spec: the transport send collaborator; its outcome is
environment-supplied. -/
def mqtt_internal_send_packet (env : ExchangeEnv) : IoT_Error :=
  env.sendResult

/-- Modelled from the spec: the blocking wait-for-packet-type collaborator;
on success the client's read buffer holds the received bytes. -/
def mqtt_internal_wait_for_read (env : ExchangeEnv) : IoT_Error × List Nat :=
  (env.waitResult, env.readBuf)

/-- The scan of `_mqtt_get_free_message_handler_index` (source lines
156-169): first index whose slot has a NULL topic name, or the table length
if every slot is occupied. -/
def scanFreeIndex : List MessageHandler → Nat → Nat
  | [], itr => itr
  | h :: rest, itr => if h.topicName = none then itr else scanFreeIndex rest (itr + 1)

/-- Embedding of `_mqtt_get_free_message_handler_index` (source lines
156-169). -/
def _mqtt_get_free_message_handler_index (pClient : MQTT_Client) : Nat :=
  scanFreeIndex pClient.clientData.messageHandlers 0

/-- Embedding of `_mqtt_internal_subscribe` (source lines 187-254).  Returns
(rc, final client, number of transport send invocations).  The write buffer
is updated by serialization before the free-slot check, exactly as in the
source; the read buffer is overwritten by a successful wait. -/
def _mqtt_internal_subscribe (env : ExchangeEnv) (pClient : MQTT_Client)
    (pTopicName : List Nat) (topicNameLen : Nat) (qos : QoS)
    (pApplicationHandler : Nat) (pApplicationHandlerData : Nat) :
    IoT_Error × MQTT_Client × Nat :=
  let txPacketId := (mqtt_get_next_packet_id pClient).1
  let c0 := (mqtt_get_next_packet_id pClient).2
  let s := _mqtt_serialize_subscribe c0.clientData.writeBuf c0.clientData.writeBufSize 0
    txPacketId [(pTopicName, topicNameLen, qos)]
  let c1 : MQTT_Client := { c0 with clientData := { c0.clientData with writeBuf := s.2.1 } }
  if s.1 ≠ MQTT_SUCCESS then (s.1, c1, 0)
  else
    let indexOfFreeMessageHandler := _mqtt_get_free_message_handler_index c1
    if MQTT_NUM_SUBSCRIBE_HANDLERS ≤ indexOfFreeMessageHandler then
      (MQTT_MAX_SUBSCRIPTIONS_REACHED_ERROR, c1, 0)
    else
      let sendRc := mqtt_internal_send_packet env
      if sendRc ≠ MQTT_SUCCESS then (sendRc, c1, 1)
      else
        let w := mqtt_internal_wait_for_read env
        if w.1 ≠ MQTT_SUCCESS then (w.1, c1, 1)
        else
          let c2 : MQTT_Client :=
            { c1 with clientData := { c1.clientData with readBuf := w.2 } }
          let d := _mqtt_deserialize_suback 0 1 0 [QOS0, QOS0, QOS0]
            c2.clientData.readBuf c2.clientData.readBufSize
          if d.1 ≠ MQTT_SUCCESS then (d.1, c2, 1)
          else
            let handlers := c2.clientData.messageHandlers.set indexOfFreeMessageHandler
              ⟨some pTopicName, topicNameLen, pApplicationHandler, pApplicationHandlerData, qos⟩
            (MQTT_SUCCESS,
              { c2 with clientData := { c2.clientData with messageHandlers := handlers } }, 1)

/-- Embedding of `mqtt_subscribe` (source lines 272-306).  The two
caller-supplied pointers that the source checks against NULL are `Option`s;
the client itself is passed by value, so the source's NULL-client guard has
no counterpart here.  Returns (rc, final client, send invocations). -/
def mqtt_subscribe (env : ExchangeEnv) (pClient : MQTT_Client)
    (pTopicName : Option (List Nat)) (topicNameLen : Nat) (qos : QoS)
    (pApplicationHandler : Option Nat) (pApplicationHandlerData : Nat) :
    IoT_Error × MQTT_Client × Nat :=
  match pTopicName, pApplicationHandler with
  | some topicName, some handler =>
    if mqtt_is_client_connected pClient = false then
      (NETWORK_DISCONNECTED_ERROR, pClient, 0)
    else
      let clientState := mqtt_get_client_state pClient
      if CLIENT_STATE_CONNECTED_IDLE ≠ clientState ∧
          CLIENT_STATE_CONNECTED_WAIT_FOR_CB_RETURN ≠ clientState then
        (MQTT_CLIENT_NOT_IDLE_ERROR, pClient, 0)
      else
        let t := mqtt_set_client_state pClient clientState
          CLIENT_STATE_CONNECTED_SUBSCRIBE_IN_PROGRESS
        if t.1 ≠ MQTT_SUCCESS then (t.1, t.2, 0)
        else
          let sub := _mqtt_internal_subscribe env t.2 topicName topicNameLen qos handler
            pApplicationHandlerData
          let r := mqtt_set_client_state sub.2.1
            CLIENT_STATE_CONNECTED_SUBSCRIBE_IN_PROGRESS clientState
          (if sub.1 = MQTT_SUCCESS ∧ r.1 ≠ MQTT_SUCCESS then r.1 else sub.1, r.2, sub.2.2)
  | _, _ => (NULL_VALUE_ERROR, pClient, 0)

/-- One iteration of the `_mqtt_internal_resubscribe` loop body (source
lines 335-366) for table entry `itr`: serialize that entry's stored
topic/QoS into the write buffer, send, wait for a SUBACK, deserialize.
Returns (rc, updated client, whether the transport send was invoked). -/
def resubStep (env : ExchangeEnv) (pClient : MQTT_Client) (itr : Nat) :
    IoT_Error × MQTT_Client × Bool :=
  let h := pClient.clientData.messageHandlers.getD itr default
  let pid := (mqtt_get_next_packet_id pClient).1
  let c0 := (mqtt_get_next_packet_id pClient).2
  let s := _mqtt_serialize_subscribe c0.clientData.writeBuf c0.clientData.writeBufSize 0
    pid [(h.topicName.getD [], h.topicNameLen, h.qos)]
  let c1 : MQTT_Client := { c0 with clientData := { c0.clientData with writeBuf := s.2.1 } }
  if s.1 ≠ MQTT_SUCCESS then (s.1, c1, false)
  else
    let sendRc := mqtt_internal_send_packet env
    if sendRc ≠ MQTT_SUCCESS then (sendRc, c1, true)
    else
      let w := mqtt_internal_wait_for_read env
      if w.1 ≠ MQTT_SUCCESS then (w.1, c1, true)
      else
        let c2 : MQTT_Client := { c1 with clientData := { c1.clientData with readBuf := w.2 } }
        let d := _mqtt_deserialize_suback 0 1 0 [QOS0, QOS0, QOS0]
          c2.clientData.readBuf c2.clientData.readBufSize
        (d.1, c2, true)

/-- The `for` loop of `_mqtt_internal_resubscribe` (source lines 335-366):
run `resubStep` for entries `itr, itr+1, ...` while the iteration budget
lasts, stopping at the first non-success step.  The third component records
the entry indices for which a transport send was invoked, in order. -/
def resubLoop (renv : Nat → ExchangeEnv) :
    Nat → MQTT_Client → Nat → List Nat → IoT_Error × MQTT_Client × List Nat
  | 0, c, _itr, sent => (MQTT_SUCCESS, c, sent)
  | fuel + 1, c, itr, sent =>
    let step := resubStep (renv itr) c itr
    let sent' := if step.2.2 then sent ++ [itr] else sent
    if step.1 ≠ MQTT_SUCCESS then (step.1, step.2.1, sent')
    else resubLoop renv fuel step.2.1 (itr + 1) sent'

/-- Embedding of `_mqtt_internal_resubscribe` (source lines 321-369): iterate
the loop body over entries `0 ..< existingSubCount`, where
`existingSubCount` is the first free table index. -/
def _mqtt_internal_resubscribe (renv : Nat → ExchangeEnv) (pClient : MQTT_Client) :
    IoT_Error × MQTT_Client × List Nat :=
  let existingSubCount := _mqtt_get_free_message_handler_index pClient
  resubLoop renv existingSubCount pClient 0 []

/-- Embedding of `mqtt_resubscribe` (source lines 384-416).  The client is
passed by value, so the source's NULL-client guard has no counterpart. -/
def mqtt_resubscribe (renv : Nat → ExchangeEnv) (pClient : MQTT_Client) :
    IoT_Error × MQTT_Client × List Nat :=
  if mqtt_is_client_connected pClient = false then
    (NETWORK_DISCONNECTED_ERROR, pClient, [])
  else if CLIENT_STATE_CONNECTED_IDLE ≠ mqtt_get_client_state pClient then
    (MQTT_CLIENT_NOT_IDLE_ERROR, pClient, [])
  else
    let t := mqtt_set_client_state pClient CLIENT_STATE_CONNECTED_IDLE
      CLIENT_STATE_CONNECTED_RESUBSCRIBE_IN_PROGRESS
    if t.1 ≠ MQTT_SUCCESS then (t.1, t.2, [])
    else
      let resub := _mqtt_internal_resubscribe renv t.2
      let r := mqtt_set_client_state resub.2.1
        CLIENT_STATE_CONNECTED_RESUBSCRIBE_IN_PROGRESS CLIENT_STATE_CONNECTED_IDLE
      (if resub.1 = MQTT_SUCCESS ∧ r.1 ≠ MQTT_SUCCESS then r.1 else resub.1, r.2, resub.2.2)

/-- Specification helper: the outcome of the exchange the resubscribe loop
performs for one table entry, as a function of the per-iteration environment
and the data the loop leaves invariant (buffer capacities, the entry).  The
serializer is consulted with a dummy buffer and packet id, which its result
code does not depend on. -/
def resubEntryCore (env : ExchangeEnv) (writeBufSize readBufSize : Nat)
    (h : MessageHandler) : IoT_Error :=
  let src := (_mqtt_serialize_subscribe [] writeBufSize 0 0
    [(h.topicName.getD [], h.topicNameLen, h.qos)]).1
  if src ≠ MQTT_SUCCESS then src
  else if env.sendResult ≠ MQTT_SUCCESS then env.sendResult
  else if env.waitResult ≠ MQTT_SUCCESS then env.waitResult
  else (_mqtt_deserialize_suback 0 1 0 [QOS0, QOS0, QOS0] env.readBuf readBufSize).1

/-- Specification helper: `resubEntryCore` for entry `itr` of a table. -/
def resubEntryRc (renv : Nat → ExchangeEnv) (writeBufSize readBufSize : Nat)
    (handlers : List MessageHandler) (itr : Nat) : IoT_Error :=
  resubEntryCore (renv itr) writeBufSize readBufSize (handlers.getD itr default)

/-- Concrete fixture: an occupied table slot. -/
def occupiedSlot : MessageHandler := ⟨some [0x74], 1, 1, 0, QOS0⟩

/-- Concrete fixture: a client in the given state with the given table and
32-byte read/write buffers. -/
def mkClient (handlers : List MessageHandler) (st : ClientState) : MQTT_Client :=
  ⟨⟨handlers, List.replicate 32 0, 32, List.replicate 32 0, 32, 1000⟩, st, true, 1⟩

/-- Concrete fixture: an exchange in which transport and wait succeed and the
broker answers with a SUBACK granting the single value `b`. -/
def envGrant (b : Nat) : ExchangeEnv :=
  ⟨MQTT_SUCCESS, MQTT_SUCCESS, [0x90, 0x03, 0x00, 0x01, b]⟩

/-- Concrete fixture: an exchange whose transport send times out. -/
def envSendTimeout : ExchangeEnv :=
  ⟨MQTT_REQUEST_TIMEOUT_ERROR, MQTT_SUCCESS, []⟩

/-- Concrete fixture: a per-iteration environment in which the exchange for
the second table entry times out at the transport send, while every other
iteration succeeds with a granted-QoS0 SUBACK. -/
def renvFailSecond : Nat → ExchangeEnv :=
  fun i => if i = 1 then envSendTimeout else envGrant 0

/-- C1: encoding a SUBSCRIBE packet with dup 0, packet id 0x0001 and the
single topic list [("a/b", length 3, QoS1)] succeeds, writes exactly the ten
bytes 82 08 00 01 00 03 61 2F 62 01 and returns serialized length 10; and
decoding the SUBACK bytes 90 03 00 01 01 succeeds with packet id 1, granted
count 1 and granted value QoS1. -/
theorem subscribe_roundtrip_example :
    _mqtt_serialize_subscribe (List.replicate 10 0) 10 0 1 [([0x61, 0x2F, 0x62], 3, QOS1)] =
      (MQTT_SUCCESS, [0x82, 0x08, 0x00, 0x01, 0x00, 0x03, 0x61, 0x2F, 0x62, 0x01], 10) ∧
    _mqtt_deserialize_suback 0 1 0 [QOS0, QOS0, QOS0] [0x90, 0x03, 0x00, 0x01, 0x01] 5 =
      (MQTT_SUCCESS, 1, 1, [QOS1, 0, 0]) := by
  decide

/-- C2: whenever the computed total packet size (1 fixed-header byte + size
of the variable-length encoding of the remaining length + the remaining
length) exceeds the destination capacity, the SUBSCRIBE encoder fails with
the buffer-too-short error and returns the destination buffer with every
byte unchanged. -/
theorem serialize_subscribe_buffer_too_short (pTxBuf : List Nat)
    (txBufLen dup packetId : Nat) (topics : List TopicSpec)
    (h : mqtt_internal_get_final_packet_length_from_remaining_length
      (2 + topics.foldl (fun acc t => acc + (t.2.1 + 2 + 1)) 0) > txBufLen) :
    _mqtt_serialize_subscribe pTxBuf txBufLen dup packetId topics =
      (MQTT_TX_BUFFER_TOO_SHORT_ERROR, pTxBuf, 0) := by
  unfold _mqtt_serialize_subscribe
  simp only [h, if_true, gt_iff_lt]

theorem serialize_subscribe_buffer_too_short_witness :
    _mqtt_serialize_subscribe [9, 9, 9, 9, 9] 5 0 1 [([0x61, 0x2F, 0x62], 3, QOS1)] =
      (MQTT_TX_BUFFER_TOO_SHORT_ERROR, [9, 9, 9, 9, 9], 0) :=
  serialize_subscribe_buffer_too_short [9, 9, 9, 9, 9] 5 0 1
    [([0x61, 0x2F, 0x62], 3, QOS1)] (by decide)

/-- C3: for every source buffer whose supplied byte length is strictly less
than 5, SUBACK decode fails with the rx-buffer-too-short error and leaves
all three out-parameters (packet id, granted count, granted array) at their
initial values. -/
theorem deserialize_suback_short_buffer (packetId0 maxExpectedQoSCount grantedCount0 : Nat)
    (granted0 pRxBuf : List Nat) (rxBufLen : Nat) (h : rxBufLen < 5) :
    _mqtt_deserialize_suback packetId0 maxExpectedQoSCount grantedCount0 granted0
        pRxBuf rxBufLen =
      (MQTT_RX_BUFFER_TOO_SHORT_ERROR, packetId0, grantedCount0, granted0) := by
  unfold _mqtt_deserialize_suback
  rw [if_pos h]

theorem deserialize_suback_short_buffer_witness :
    _mqtt_deserialize_suback 0 1 0 [QOS0, QOS0, QOS0] [0x90, 0x03, 0x00, 0x01] 4 =
      (MQTT_RX_BUFFER_TOO_SHORT_ERROR, 0, 0, [QOS0, QOS0, QOS0]) :=
  deserialize_suback_short_buffer 0 1 0 [QOS0, QOS0, QOS0] [0x90, 0x03, 0x00, 0x01] 4
    (by decide)

/-- C4: for every source buffer of length at least 5 whose fixed-header type
nibble is not the SUBACK type code, SUBACK decode fails with the protocol
mismatch error (the source's MQTT_FAILURE) and leaves the out-parameters at
their initial values. -/
theorem deserialize_suback_wrong_type (packetId0 maxExpectedQoSCount grantedCount0 : Nat)
    (granted0 pRxBuf : List Nat) (rxBufLen : Nat) (h5 : 5 ≤ rxBufLen)
    (ht : mqtt_internal_read_char pRxBuf 0 / 16 ≠ SUBACK) :
    _mqtt_deserialize_suback packetId0 maxExpectedQoSCount grantedCount0 granted0
        pRxBuf rxBufLen =
      (MQTT_FAILURE, packetId0, grantedCount0, granted0) := by
  unfold _mqtt_deserialize_suback
  rw [if_neg (by omega)]
  simp only []
  rw [if_pos ht]

theorem deserialize_suback_wrong_type_witness :
    _mqtt_deserialize_suback 0 1 0 [QOS0, QOS0, QOS0] [0x30, 0x03, 0x00, 0x01, 0x01] 5 =
      (MQTT_FAILURE, 0, 0, [QOS0, QOS0, QOS0]) :=
  deserialize_suback_wrong_type 0 1 0 [QOS0, QOS0, QOS0] [0x30, 0x03, 0x00, 0x01, 0x01] 5
    (by decide) (by decide)

/-- C5 (code bug evaluation): with caller-supplied maximum 0, decoding the
SUBACK bytes 90 03 00 01 01 writes one granted-QoS entry — exceeding the
maximum — and returns success with count 1 instead of failing: the decode
loop's bound test `count > max` runs before the store, so it admits one
entry more than the stated maximum. -/
theorem deserialize_suback_exceeds_max :
    _mqtt_deserialize_suback 0 0 0 [QOS0, QOS0, QOS0] [0x90, 0x03, 0x00, 0x01, 0x01] 5 =
      (MQTT_SUCCESS, 1, 1, [QOS1, 0, 0]) := by
  decide

lemma getD_set_self {α : Type} [Inhabited α] (l : List α) (i : Nat) (a : α)
    (h : i < l.length) : (l.set i a).getD i default = a := by
  induction l generalizing i with
  | nil => simp at h
  | cons x xs ih =>
    cases i with
    | zero => rfl
    | succ n => simpa using ih n (by simpa using h)

lemma scanFreeIndex_full (hs : List MessageHandler)
    (hfull : ∀ h ∈ hs, h.topicName ≠ none) :
    ∀ i, scanFreeIndex hs i = i + hs.length := by
  induction hs with
  | nil => intro i; simp [scanFreeIndex]
  | cons x xs ih =>
    intro i
    have hx : x.topicName ≠ none := hfull x (List.mem_cons_self x xs)
    have ih' := ih (fun h hm => hfull h (List.mem_cons_of_mem x hm)) (i + 1)
    simp only [scanFreeIndex, hx, if_false, ih', List.length_cons]
    omega

lemma scanFreeIndex_le (hs : List MessageHandler) :
    ∀ i, scanFreeIndex hs i ≤ i + hs.length := by
  induction hs with
  | nil => intro i; simp [scanFreeIndex]
  | cons x xs ih =>
    intro i
    by_cases hx : x.topicName = none
    · simp only [scanFreeIndex, hx, if_true, List.length_cons]; omega
    · have := ih (i + 1)
      simp only [scanFreeIndex, hx, if_false, List.length_cons]
      omega

lemma serialize_subscribe_fst_congr (buf1 buf2 : List Nat) (len d1 d2 pid1 pid2 : Nat)
    (ts : List TopicSpec) :
    (_mqtt_serialize_subscribe buf1 len d1 pid1 ts).1 =
      (_mqtt_serialize_subscribe buf2 len d2 pid2 ts).1 := by
  simp only [_mqtt_serialize_subscribe, mqtt_internal_init_header]
  split_ifs <;> rfl

lemma serialize_subscribe_fits (buf : List Nat) (len dup pid : Nat) (ts : List TopicSpec)
    (h : mqtt_internal_get_final_packet_length_from_remaining_length
      (2 + ts.foldl (fun acc t => acc + (t.2.1 + 2 + 1)) 0) ≤ len) :
    (_mqtt_serialize_subscribe buf len dup pid ts).1 = MQTT_SUCCESS := by
  unfold _mqtt_serialize_subscribe mqtt_internal_init_header
  rw [if_neg (by omega)]
  rfl

lemma internal_subscribe_clientState (env : ExchangeEnv) (pClient : MQTT_Client)
    (pTopicName : List Nat) (topicNameLen : Nat) (qos : QoS) (handler hdata : Nat) :
    (_mqtt_internal_subscribe env pClient pTopicName topicNameLen qos handler
      hdata).2.1.clientState = pClient.clientState := by
  simp only [_mqtt_internal_subscribe, mqtt_get_next_packet_id]
  split_ifs <;> rfl

/-- C6: every subscribe call that reaches (and hence succeeds at) the forward
transition to subscribe-in-progress returns with the client state equal to
the state captured immediately before the call, for every exchange outcome.
-/
theorem mqtt_subscribe_restores_state (env : ExchangeEnv) (pClient : MQTT_Client)
    (topicName : List Nat) (topicNameLen : Nat) (qos : QoS) (handler hdata : Nat)
    (hconn : pClient.isConnected = true)
    (hstate : pClient.clientState = CLIENT_STATE_CONNECTED_IDLE ∨
      pClient.clientState = CLIENT_STATE_CONNECTED_WAIT_FOR_CB_RETURN) :
    (mqtt_subscribe env pClient (some topicName) topicNameLen qos (some handler)
      hdata).2.1.clientState = pClient.clientState := by
  have hok : ¬(CLIENT_STATE_CONNECTED_IDLE ≠ pClient.clientState ∧
      CLIENT_STATE_CONNECTED_WAIT_FOR_CB_RETURN ≠ pClient.clientState) := by
    rcases hstate with h | h <;> simp [h]
  have hfwd : mqtt_set_client_state pClient pClient.clientState
      CLIENT_STATE_CONNECTED_SUBSCRIBE_IN_PROGRESS =
      (MQTT_SUCCESS,
        { pClient with clientState := CLIENT_STATE_CONNECTED_SUBSCRIBE_IN_PROGRESS }) := by
    simp [mqtt_set_client_state]
  have hint := internal_subscribe_clientState env
    { pClient with clientState := CLIENT_STATE_CONNECTED_SUBSCRIBE_IN_PROGRESS }
    topicName topicNameLen qos handler hdata
  have hback : mqtt_set_client_state
      (_mqtt_internal_subscribe env
        { pClient with clientState := CLIENT_STATE_CONNECTED_SUBSCRIBE_IN_PROGRESS }
        topicName topicNameLen qos handler hdata).2.1
      CLIENT_STATE_CONNECTED_SUBSCRIBE_IN_PROGRESS pClient.clientState =
      (MQTT_SUCCESS,
        { (_mqtt_internal_subscribe env
            { pClient with clientState := CLIENT_STATE_CONNECTED_SUBSCRIBE_IN_PROGRESS }
            topicName topicNameLen qos handler hdata).2.1 with
          clientState := pClient.clientState }) := by
    simp [mqtt_set_client_state, hint]
  simp only [mqtt_subscribe, mqtt_is_client_connected, mqtt_get_client_state]
  rw [if_neg (by simp [hconn]), if_neg hok, hfwd]
  simp only [ne_eq, not_true_eq_false, if_false, reduceCtorEq, not_false_eq_true, ite_false]
  rw [hback]

theorem mqtt_subscribe_restores_state_witness :
    (mqtt_subscribe (envGrant 1) (mkClient [default] CLIENT_STATE_CONNECTED_IDLE)
      (some [0x61, 0x2F, 0x62]) 3 QOS1 (some 1) 0).2.1.clientState =
      CLIENT_STATE_CONNECTED_IDLE :=
  (mqtt_subscribe_restores_state (envGrant 1)
    (mkClient [default] CLIENT_STATE_CONNECTED_IDLE) [0x61, 0x2F, 0x62] 3 QOS1 1 0
    (by decide) (Or.inl (by decide))).trans (by decide)

lemma internal_subscribe_table_full (env : ExchangeEnv) (pClient : MQTT_Client)
    (pTopicName : List Nat) (topicNameLen : Nat) (qos : QoS) (handler hdata : Nat)
    (hlen : pClient.clientData.messageHandlers.length = MQTT_NUM_SUBSCRIBE_HANDLERS)
    (hfull : ∀ h ∈ pClient.clientData.messageHandlers, h.topicName ≠ none)
    (hfit : mqtt_internal_get_final_packet_length_from_remaining_length
      (2 + (topicNameLen + 2 + 1)) ≤ pClient.clientData.writeBufSize) :
    (_mqtt_internal_subscribe env pClient pTopicName topicNameLen qos handler hdata).1 =
        MQTT_MAX_SUBSCRIPTIONS_REACHED_ERROR ∧
    (_mqtt_internal_subscribe env pClient pTopicName topicNameLen qos handler hdata).2.2 = 0 ∧
    (_mqtt_internal_subscribe env pClient pTopicName topicNameLen qos handler
        hdata).2.1.clientData.writeBuf =
      (_mqtt_serialize_subscribe pClient.clientData.writeBuf pClient.clientData.writeBufSize 0
        (pClient.nextPacketId % 65536) [(pTopicName, topicNameLen, qos)]).2.1 := by
  have hser : (_mqtt_serialize_subscribe pClient.clientData.writeBuf
      pClient.clientData.writeBufSize 0 (pClient.nextPacketId % 65536)
      [(pTopicName, topicNameLen, qos)]).1 = MQTT_SUCCESS := by
    apply serialize_subscribe_fits
    simpa using hfit
  have hidx : scanFreeIndex pClient.clientData.messageHandlers 0 =
      MQTT_NUM_SUBSCRIBE_HANDLERS := by
    rw [scanFreeIndex_full pClient.clientData.messageHandlers hfull 0, Nat.zero_add, hlen]
  simp only [_mqtt_internal_subscribe, mqtt_get_next_packet_id,
    _mqtt_get_free_message_handler_index]
  rw [if_neg (by simp [hser]), if_pos (by simp [hidx])]
  exact ⟨rfl, rfl, rfl⟩

lemma mqtt_subscribe_table_full_spec (env : ExchangeEnv) (pClient : MQTT_Client)
    (topicName : List Nat) (topicNameLen : Nat) (qos : QoS) (handler hdata : Nat)
    (hconn : pClient.isConnected = true)
    (hstate : pClient.clientState = CLIENT_STATE_CONNECTED_IDLE ∨
      pClient.clientState = CLIENT_STATE_CONNECTED_WAIT_FOR_CB_RETURN)
    (hlen : pClient.clientData.messageHandlers.length = MQTT_NUM_SUBSCRIBE_HANDLERS)
    (hfull : ∀ h ∈ pClient.clientData.messageHandlers, h.topicName ≠ none)
    (hfit : mqtt_internal_get_final_packet_length_from_remaining_length
      (2 + (topicNameLen + 2 + 1)) ≤ pClient.clientData.writeBufSize) :
    (mqtt_subscribe env pClient (some topicName) topicNameLen qos (some handler) hdata).1 =
        MQTT_MAX_SUBSCRIPTIONS_REACHED_ERROR ∧
    (mqtt_subscribe env pClient (some topicName) topicNameLen qos (some handler) hdata).2.2
        = 0 ∧
    (mqtt_subscribe env pClient (some topicName) topicNameLen qos (some handler)
        hdata).2.1.clientData.writeBuf =
      (_mqtt_serialize_subscribe pClient.clientData.writeBuf pClient.clientData.writeBufSize 0
        (pClient.nextPacketId % 65536) [(topicName, topicNameLen, qos)]).2.1 := by
  have hok : ¬(CLIENT_STATE_CONNECTED_IDLE ≠ pClient.clientState ∧
      CLIENT_STATE_CONNECTED_WAIT_FOR_CB_RETURN ≠ pClient.clientState) := by
    rcases hstate with h | h <;> simp [h]
  have hfwd : mqtt_set_client_state pClient pClient.clientState
      CLIENT_STATE_CONNECTED_SUBSCRIBE_IN_PROGRESS =
      (MQTT_SUCCESS,
        { pClient with clientState := CLIENT_STATE_CONNECTED_SUBSCRIBE_IN_PROGRESS }) := by
    simp [mqtt_set_client_state]
  obtain ⟨h1, h2, h3⟩ := internal_subscribe_table_full env
    { pClient with clientState := CLIENT_STATE_CONNECTED_SUBSCRIBE_IN_PROGRESS }
    topicName topicNameLen qos handler hdata hlen hfull hfit
  have hint := internal_subscribe_clientState env
    { pClient with clientState := CLIENT_STATE_CONNECTED_SUBSCRIBE_IN_PROGRESS }
    topicName topicNameLen qos handler hdata
  have hback : mqtt_set_client_state
      (_mqtt_internal_subscribe env
        { pClient with clientState := CLIENT_STATE_CONNECTED_SUBSCRIBE_IN_PROGRESS }
        topicName topicNameLen qos handler hdata).2.1
      CLIENT_STATE_CONNECTED_SUBSCRIBE_IN_PROGRESS pClient.clientState =
      (MQTT_SUCCESS,
        { (_mqtt_internal_subscribe env
            { pClient with clientState := CLIENT_STATE_CONNECTED_SUBSCRIBE_IN_PROGRESS }
            topicName topicNameLen qos handler hdata).2.1 with
          clientState := pClient.clientState }) := by
    simp [mqtt_set_client_state, hint]
  dsimp only at h3
  simp only [mqtt_subscribe, mqtt_is_client_connected, mqtt_get_client_state]
  rw [if_neg (by simp [hconn]), if_neg hok, hfwd]
  simp only [ne_eq, not_true_eq_false, if_false, reduceCtorEq, not_false_eq_true, ite_false]
  rw [hback]
  refine ⟨?_, ?_, ?_⟩
  · simp only [ne_eq, not_true_eq_false, and_false, if_false, ite_false]
    exact h1
  · exact h2
  · simpa using h3

/-- C7: when every slot of the capacity-sized subscription table is occupied
(and the request itself fits the write buffer, so serialization is not the
failure), a subscribe call that passes its preconditions fails with
MaxSubscriptionsReached and the transport send collaborator is never invoked
(zero sends). -/
theorem mqtt_subscribe_max_subscriptions (env : ExchangeEnv) (pClient : MQTT_Client)
    (topicName : List Nat) (topicNameLen : Nat) (qos : QoS) (handler hdata : Nat)
    (hconn : pClient.isConnected = true)
    (hstate : pClient.clientState = CLIENT_STATE_CONNECTED_IDLE ∨
      pClient.clientState = CLIENT_STATE_CONNECTED_WAIT_FOR_CB_RETURN)
    (hlen : pClient.clientData.messageHandlers.length = MQTT_NUM_SUBSCRIBE_HANDLERS)
    (hfull : ∀ h ∈ pClient.clientData.messageHandlers, h.topicName ≠ none)
    (hfit : mqtt_internal_get_final_packet_length_from_remaining_length
      (2 + (topicNameLen + 2 + 1)) ≤ pClient.clientData.writeBufSize) :
    (mqtt_subscribe env pClient (some topicName) topicNameLen qos (some handler) hdata).1 =
        MQTT_MAX_SUBSCRIPTIONS_REACHED_ERROR ∧
    (mqtt_subscribe env pClient (some topicName) topicNameLen qos (some handler) hdata).2.2
        = 0 :=
  ⟨(mqtt_subscribe_table_full_spec env pClient topicName topicNameLen qos handler hdata
      hconn hstate hlen hfull hfit).1,
    (mqtt_subscribe_table_full_spec env pClient topicName topicNameLen qos handler hdata
      hconn hstate hlen hfull hfit).2.1⟩

theorem mqtt_subscribe_max_subscriptions_witness :
    (mqtt_subscribe (envGrant 1)
      (mkClient (List.replicate 5 occupiedSlot) CLIENT_STATE_CONNECTED_IDLE)
      (some [0x61, 0x2F, 0x62]) 3 QOS1 (some 1) 0).1 =
        MQTT_MAX_SUBSCRIPTIONS_REACHED_ERROR ∧
    (mqtt_subscribe (envGrant 1)
      (mkClient (List.replicate 5 occupiedSlot) CLIENT_STATE_CONNECTED_IDLE)
      (some [0x61, 0x2F, 0x62]) 3 QOS1 (some 1) 0).2.2 = 0 :=
  mqtt_subscribe_max_subscriptions (envGrant 1)
    (mkClient (List.replicate 5 occupiedSlot) CLIENT_STATE_CONNECTED_IDLE)
    [0x61, 0x2F, 0x62] 3 QOS1 1 0 (by decide) (Or.inl (by decide)) (by decide) (by decide)
    (by decide)

/-- C10: when a subscribe call fails with MaxSubscriptionsReached because the
table is full, the client's shared write buffer has nevertheless already been
overwritten with the serialized SUBSCRIBE packet, because serialization into
the write buffer happens before the free-slot check. -/
theorem mqtt_subscribe_full_table_writes_buffer (env : ExchangeEnv) (pClient : MQTT_Client)
    (topicName : List Nat) (topicNameLen : Nat) (qos : QoS) (handler hdata : Nat)
    (hconn : pClient.isConnected = true)
    (hstate : pClient.clientState = CLIENT_STATE_CONNECTED_IDLE ∨
      pClient.clientState = CLIENT_STATE_CONNECTED_WAIT_FOR_CB_RETURN)
    (hlen : pClient.clientData.messageHandlers.length = MQTT_NUM_SUBSCRIBE_HANDLERS)
    (hfull : ∀ h ∈ pClient.clientData.messageHandlers, h.topicName ≠ none)
    (hfit : mqtt_internal_get_final_packet_length_from_remaining_length
      (2 + (topicNameLen + 2 + 1)) ≤ pClient.clientData.writeBufSize) :
    (mqtt_subscribe env pClient (some topicName) topicNameLen qos (some handler) hdata).1 =
        MQTT_MAX_SUBSCRIPTIONS_REACHED_ERROR ∧
    (mqtt_subscribe env pClient (some topicName) topicNameLen qos (some handler)
        hdata).2.1.clientData.writeBuf =
      (_mqtt_serialize_subscribe pClient.clientData.writeBuf pClient.clientData.writeBufSize 0
        (pClient.nextPacketId % 65536) [(topicName, topicNameLen, qos)]).2.1 :=
  ⟨(mqtt_subscribe_table_full_spec env pClient topicName topicNameLen qos handler hdata
      hconn hstate hlen hfull hfit).1,
    (mqtt_subscribe_table_full_spec env pClient topicName topicNameLen qos handler hdata
      hconn hstate hlen hfull hfit).2.2⟩

theorem mqtt_subscribe_full_table_writes_buffer_witness :
    (mqtt_subscribe (envGrant 1)
      (mkClient (List.replicate 5 occupiedSlot) CLIENT_STATE_CONNECTED_IDLE)
      (some [0x61, 0x2F, 0x62]) 3 QOS1 (some 1) 0).2.1.clientData.writeBuf =
      [0x82, 0x08, 0x00, 0x01, 0x00, 0x03, 0x61, 0x2F, 0x62, 0x01] ++
        List.replicate 22 0 :=
  ((mqtt_subscribe_full_table_writes_buffer (envGrant 1)
    (mkClient (List.replicate 5 occupiedSlot) CLIENT_STATE_CONNECTED_IDLE)
    [0x61, 0x2F, 0x62] 3 QOS1 1 0 (by decide) (Or.inl (by decide)) (by decide) (by decide)
    (by decide)).2).trans (by decide)

/-- C9: whenever the internal subscribe succeeds, the table slot it registers
holds the caller's topic reference, topic length, handler reference, opaque
context, and the caller's requested QoS value — not the granted QoS decoded
from the SUBACK payload (the statement holds for every exchange environment,
whatever QoS the broker granted). -/
theorem internal_subscribe_registers_requested_qos (env : ExchangeEnv)
    (pClient : MQTT_Client) (pTopicName : List Nat) (topicNameLen : Nat) (qos : QoS)
    (handler hdata : Nat)
    (hlen : pClient.clientData.messageHandlers.length = MQTT_NUM_SUBSCRIBE_HANDLERS)
    (hsucc : (_mqtt_internal_subscribe env pClient pTopicName topicNameLen qos handler
      hdata).1 = MQTT_SUCCESS) :
    (_mqtt_internal_subscribe env pClient pTopicName topicNameLen qos handler
        hdata).2.1.clientData.messageHandlers.getD
        (_mqtt_get_free_message_handler_index pClient) default =
      ⟨some pTopicName, topicNameLen, handler, hdata, qos⟩ := by
  simp only [_mqtt_internal_subscribe, mqtt_get_next_packet_id,
    _mqtt_get_free_message_handler_index, mqtt_internal_send_packet,
    mqtt_internal_wait_for_read] at hsucc ⊢
  split_ifs at hsucc ⊢ <;>
    first
      | exact absurd hsucc (by assumption)
      | exact getD_set_self _ _ _ (by rw [hlen]; omega)

theorem internal_subscribe_registers_requested_qos_witness :
    (_mqtt_internal_subscribe (envGrant 2)
        (mkClient [occupiedSlot, default, default, default, default] CLIENT_STATE_CONNECTED_IDLE)
        [0x61, 0x2F, 0x62] 3 QOS1 7 9).2.1.clientData.messageHandlers.getD
        (_mqtt_get_free_message_handler_index
          (mkClient [occupiedSlot, default, default, default, default] CLIENT_STATE_CONNECTED_IDLE)) default =
      ⟨some [0x61, 0x2F, 0x62], 3, 7, 9, QOS1⟩ :=
  internal_subscribe_registers_requested_qos (envGrant 2)
    (mkClient [occupiedSlot, default, default, default, default] CLIENT_STATE_CONNECTED_IDLE)
    [0x61, 0x2F, 0x62] 3 QOS1 7 9 (by decide) (by decide)

lemma resubStep_preserved (env : ExchangeEnv) (c : MQTT_Client) (itr : Nat) :
    (resubStep env c itr).2.1.clientData.messageHandlers = c.clientData.messageHandlers ∧
    (resubStep env c itr).2.1.clientData.writeBufSize = c.clientData.writeBufSize ∧
    (resubStep env c itr).2.1.clientData.readBufSize = c.clientData.readBufSize ∧
    (resubStep env c itr).2.1.clientState = c.clientState := by
  simp only [resubStep, mqtt_get_next_packet_id, mqtt_internal_send_packet,
    mqtt_internal_wait_for_read]
  split_ifs <;> exact ⟨rfl, rfl, rfl, rfl⟩

lemma resubStep_fst (env : ExchangeEnv) (c : MQTT_Client) (itr : Nat) :
    (resubStep env c itr).1 =
      resubEntryCore env c.clientData.writeBufSize c.clientData.readBufSize
        (c.clientData.messageHandlers.getD itr default) := by
  have hser := serialize_subscribe_fst_congr c.clientData.writeBuf []
    c.clientData.writeBufSize 0 0 (c.nextPacketId % 65536) 0
    [((c.clientData.messageHandlers.getD itr default).topicName.getD [],
      (c.clientData.messageHandlers.getD itr default).topicNameLen,
      (c.clientData.messageHandlers.getD itr default).qos)]
  simp only [resubStep, resubEntryCore, mqtt_get_next_packet_id, mqtt_internal_send_packet,
    mqtt_internal_wait_for_read]
  rw [hser]
  split_ifs <;> rfl

lemma resubLoop_spec (renv : Nat → ExchangeEnv) (wbs rbs : Nat)
    (handlers : List MessageHandler) (st : ClientState) :
    ∀ (fuel itr : Nat) (c : MQTT_Client) (sent : List Nat),
      c.clientData.writeBufSize = wbs → c.clientData.readBufSize = rbs →
      c.clientData.messageHandlers = handlers → c.clientState = st →
      ((resubLoop renv fuel c itr sent).2.1.clientData.messageHandlers = handlers ∧
        (resubLoop renv fuel c itr sent).2.1.clientState = st) ∧
      ((∀ j, itr ≤ j → j < itr + fuel →
          resubEntryRc renv wbs rbs handlers j = MQTT_SUCCESS) →
        (resubLoop renv fuel c itr sent).1 = MQTT_SUCCESS) ∧
      (∀ k, itr ≤ k → k < itr + fuel →
        (∀ j, itr ≤ j → j < k → resubEntryRc renv wbs rbs handlers j = MQTT_SUCCESS) →
        resubEntryRc renv wbs rbs handlers k ≠ MQTT_SUCCESS →
        (resubLoop renv fuel c itr sent).1 = resubEntryRc renv wbs rbs handlers k ∧
        ∀ j ∈ (resubLoop renv fuel c itr sent).2.2, j ∈ sent ∨ j ≤ k) := by
  intro fuel
  induction fuel with
  | zero =>
    intro itr c sent hw hr hh hst
    refine ⟨⟨hh, hst⟩, fun _ => rfl, ?_⟩
    intro k hk1 hk2
    omega
  | succ n ih =>
    intro itr c sent hw hr hh hst
    have hstep : (resubStep (renv itr) c itr).1 = resubEntryRc renv wbs rbs handlers itr := by
      rw [resubStep_fst, hw, hr, hh]
      rfl
    have hpres := resubStep_preserved (renv itr) c itr
    have hmem : ∀ (b : Bool) (j : Nat),
        j ∈ (if b then sent ++ [itr] else sent) → j ∈ sent ∨ j = itr := by
      intro b j hj
      cases b with
      | false => exact Or.inl hj
      | true => simpa using hj
    by_cases hrc : (resubStep (renv itr) c itr).1 = MQTT_SUCCESS
    · have heq : resubLoop renv (n + 1) c itr sent =
          resubLoop renv n (resubStep (renv itr) c itr).2.1 (itr + 1)
            (if (resubStep (renv itr) c itr).2.2 then sent ++ [itr] else sent) := by
        simp only [resubLoop]
        rw [if_neg (not_not_intro hrc)]
      have ihc := ih (itr + 1) (resubStep (renv itr) c itr).2.1
        (if (resubStep (renv itr) c itr).2.2 then sent ++ [itr] else sent)
        (hpres.2.1.trans hw) (hpres.2.2.1.trans hr) (hpres.1.trans hh)
        (hpres.2.2.2.trans hst)
      rw [heq]
      refine ⟨ihc.1, ?_, ?_⟩
      · intro hall
        exact ihc.2.1 (fun j hj1 hj2 => hall j (by omega) (by omega))
      · intro k hk1 hk2 hbefore hfail
        have hk1' : itr + 1 ≤ k := by
          rcases Nat.eq_or_lt_of_le hk1 with he | hl
          · exact absurd (by rw [← he]; exact hstep.symm.trans hrc) hfail
          · omega
        obtain ⟨hres, hsent⟩ := ihc.2.2 k hk1' (by omega)
          (fun j hj1 hj2 => hbefore j (by omega) hj2) hfail
        refine ⟨hres, ?_⟩
        intro j hj
        rcases hsent j hj with hin | hle
        · rcases hmem _ j hin with h1 | h2
          · exact Or.inl h1
          · right
            omega
        · exact Or.inr hle
    · have heq : resubLoop renv (n + 1) c itr sent =
          ((resubStep (renv itr) c itr).1, (resubStep (renv itr) c itr).2.1,
            if (resubStep (renv itr) c itr).2.2 then sent ++ [itr] else sent) := by
        simp only [resubLoop]
        rw [if_pos hrc]
      rw [heq]
      refine ⟨⟨hpres.1.trans hh, hpres.2.2.2.trans hst⟩, ?_, ?_⟩
      · intro hall
        exact absurd (hstep.trans (hall itr (le_refl itr) (by omega))) hrc
      · intro k hk1 hk2 hbefore hfail
        have hki : k = itr := by
          by_contra hne
          have hlt : itr < k := by omega
          exact absurd (hstep.trans (hbefore itr (le_refl itr) hlt)) hrc
        subst hki
        refine ⟨hstep, ?_⟩
        intro j hj
        rcases hmem _ j hj with h1 | h2
        · exact Or.inl h1
        · right
          omega

/-- C8: resubscribe processes occupied table entries in index order from 0.
If every per-entry exchange succeeds the call returns success; if the
exchange for entry k is the first to fail, the call returns entry k's error,
attempts no transport send for any entry after k, leaves the table entries
unchanged, and restores the client state to idle in either case. -/
theorem mqtt_resubscribe_first_error (renv : Nat → ExchangeEnv) (pClient : MQTT_Client)
    (hconn : pClient.isConnected = true)
    (hidle : pClient.clientState = CLIENT_STATE_CONNECTED_IDLE) :
    ((mqtt_resubscribe renv pClient).2.1.clientData.messageHandlers =
        pClient.clientData.messageHandlers ∧
      (mqtt_resubscribe renv pClient).2.1.clientState = CLIENT_STATE_CONNECTED_IDLE) ∧
    ((∀ j, j < _mqtt_get_free_message_handler_index pClient →
        resubEntryRc renv pClient.clientData.writeBufSize pClient.clientData.readBufSize
          pClient.clientData.messageHandlers j = MQTT_SUCCESS) →
      (mqtt_resubscribe renv pClient).1 = MQTT_SUCCESS) ∧
    (∀ k, k < _mqtt_get_free_message_handler_index pClient →
      (∀ j, j < k →
        resubEntryRc renv pClient.clientData.writeBufSize pClient.clientData.readBufSize
          pClient.clientData.messageHandlers j = MQTT_SUCCESS) →
      resubEntryRc renv pClient.clientData.writeBufSize pClient.clientData.readBufSize
        pClient.clientData.messageHandlers k ≠ MQTT_SUCCESS →
      (mqtt_resubscribe renv pClient).1 =
        resubEntryRc renv pClient.clientData.writeBufSize pClient.clientData.readBufSize
          pClient.clientData.messageHandlers k ∧
      ∀ j ∈ (mqtt_resubscribe renv pClient).2.2, j ≤ k) := by
  have hCAS : mqtt_set_client_state pClient CLIENT_STATE_CONNECTED_IDLE
      CLIENT_STATE_CONNECTED_RESUBSCRIBE_IN_PROGRESS =
      (MQTT_SUCCESS,
        { pClient with clientState := CLIENT_STATE_CONNECTED_RESUBSCRIBE_IN_PROGRESS }) := by
    simp [mqtt_set_client_state, hidle]
  have hidx : _mqtt_get_free_message_handler_index
      { pClient with clientState := CLIENT_STATE_CONNECTED_RESUBSCRIBE_IN_PROGRESS } =
      _mqtt_get_free_message_handler_index pClient := rfl
  have hspec := resubLoop_spec renv pClient.clientData.writeBufSize
    pClient.clientData.readBufSize pClient.clientData.messageHandlers
    CLIENT_STATE_CONNECTED_RESUBSCRIBE_IN_PROGRESS
    (_mqtt_get_free_message_handler_index
      { pClient with clientState := CLIENT_STATE_CONNECTED_RESUBSCRIBE_IN_PROGRESS })
    0
    { pClient with clientState := CLIENT_STATE_CONNECTED_RESUBSCRIBE_IN_PROGRESS }
    [] rfl rfl rfl rfl
  have hback : mqtt_set_client_state
      (resubLoop renv
        (_mqtt_get_free_message_handler_index
          { pClient with clientState := CLIENT_STATE_CONNECTED_RESUBSCRIBE_IN_PROGRESS })
        { pClient with clientState := CLIENT_STATE_CONNECTED_RESUBSCRIBE_IN_PROGRESS }
        0 []).2.1
      CLIENT_STATE_CONNECTED_RESUBSCRIBE_IN_PROGRESS CLIENT_STATE_CONNECTED_IDLE =
      (MQTT_SUCCESS,
        { (resubLoop renv
            (_mqtt_get_free_message_handler_index
              { pClient with clientState := CLIENT_STATE_CONNECTED_RESUBSCRIBE_IN_PROGRESS })
            { pClient with clientState := CLIENT_STATE_CONNECTED_RESUBSCRIBE_IN_PROGRESS }
            0 []).2.1 with
          clientState := CLIENT_STATE_CONNECTED_IDLE }) := by
    simp [mqtt_set_client_state, hspec.1.2]
  simp only [mqtt_resubscribe, mqtt_is_client_connected, mqtt_get_client_state,
    _mqtt_internal_resubscribe]
  rw [if_neg (by simp [hconn]), if_neg (by simp [hidle]), hCAS]
  simp only [ne_eq, not_true_eq_false, if_false, reduceCtorEq, not_false_eq_true, ite_false]
  rw [hback]
  simp only [ne_eq, not_true_eq_false, and_false, if_false, ite_false]
  rw [← hidx]
  refine ⟨⟨hspec.1.1, trivial⟩, ?_, ?_⟩
  · intro hall
    exact hspec.2.1 (fun j hj1 hj2 => hall j (by omega))
  · intro k hk hbefore hfail
    obtain ⟨hres, hsent⟩ := hspec.2.2 k (Nat.zero_le k) (by omega)
      (fun j hj1 hj2 => hbefore j hj2) hfail
    refine ⟨hres, ?_⟩
    intro j hj
    rcases hsent j hj with h1 | h2
    · exact absurd h1 (List.not_mem_nil j)
    · exact h2

theorem mqtt_resubscribe_first_error_witness :
    (mqtt_resubscribe renvFailSecond
      (mkClient [occupiedSlot, occupiedSlot, occupiedSlot, default, default]
        CLIENT_STATE_CONNECTED_IDLE)).1 = MQTT_REQUEST_TIMEOUT_ERROR ∧
    (mqtt_resubscribe renvFailSecond
      (mkClient [occupiedSlot, occupiedSlot, occupiedSlot, default, default]
        CLIENT_STATE_CONNECTED_IDLE)).2.1.clientState = CLIENT_STATE_CONNECTED_IDLE := by
  have h := mqtt_resubscribe_first_error renvFailSecond
    (mkClient [occupiedSlot, occupiedSlot, occupiedSlot, default, default]
      CLIENT_STATE_CONNECTED_IDLE) (by decide) (by decide)
  have hk := h.2.2 1 (by decide)
    (by
      intro j hj
      have hj0 : j = 0 := by omega
      subst hj0
      decide)
    (by decide)
  exact ⟨hk.1.trans (by decide), h.1.2⟩

end MqttSubscribe
